import Mathlib

/-!
Shallow embedding of the loan amortization and payment allocation engine of
the Ultimate Loan Management System repository (Django, `core` app).

Monetary values are modelled as rationals (`ℚ`): the Python source computes
with `decimal.Decimal`; every quantity appearing in the verified claims is
exactly representable, so the rational model is faithful on them.
Calendar dates are modelled explicitly, with the one-calendar-month step of
`dateutil.relativedelta(months=1)` (day clamped to the length of the target
month) reproduced in `addMonth`.

Source files embedded here:
  - `core/models.py`    — the `LoanApplication`, `Loan`, `PaymentSchedule`
    and `Payment` records (only the fields read or written by the verified
    operations are carried).
  - `core/signals.py`   — `create_loan_on_approval`: the loan row created
    when an application becomes `approved`, with its opening balance.
  - `core/views.py`     — `LoanApplicationViewSet.disburse` (schedule
    creation) and `PaymentAPIView.post`.
  - `core/serializers.py` — `PaymentSerializer.create` (payment
    application).
-/

/-! ## Calendar dates -/

/-- A calendar date, ordered lexicographically by year, month, day. -/
structure Date where
  year : Nat
  month : Nat
  day : Nat
deriving DecidableEq, Repr

/-- Strict lexicographic order on dates. -/
def Date.Lt (a b : Date) : Prop :=
  a.year < b.year ∨
    (a.year = b.year ∧ (a.month < b.month ∨ (a.month = b.month ∧ a.day < b.day)))

instance (a b : Date) : Decidable (Date.Lt a b) :=
  inferInstanceAs (Decidable (a.year < b.year ∨
    (a.year = b.year ∧ (a.month < b.month ∨ (a.month = b.month ∧ a.day < b.day)))))

/-- Non-strict order on dates. -/
def Date.Le (a b : Date) : Prop := Date.Lt a b ∨ a = b

instance (a b : Date) : Decidable (Date.Le a b) :=
  inferInstanceAs (Decidable (Date.Lt a b ∨ a = b))

/-- Gregorian leap-year test, as in Python's `calendar` module. -/
def isLeapYear (y : Nat) : Bool :=
  (y % 4 == 0 && y % 100 != 0) || (y % 400 == 0)

/-- Number of days in a month of a given year. -/
def daysInMonth (y m : Nat) : Nat :=
  if m = 2 then (if isLeapYear y then 29 else 28)
  else if m = 4 ∨ m = 6 ∨ m = 9 ∨ m = 11 then 30
  else 31

/-- One calendar month forward, as computed by
`dateutil.relativedelta(months=1)`: the month index advances (with year
carry), and the day is clamped to the length of the target month. -/
def addMonth (d : Date) : Date :=
  if 12 ≤ d.month then
    { year := d.year + 1, month := 1, day := min d.day (daysInMonth (d.year + 1) 1) }
  else
    { year := d.year, month := d.month + 1,
      day := min d.day (daysInMonth d.year (d.month + 1)) }

/-! ## Data model (`core/models.py`) -/

/-- `LoanApplication.STATUS_CHOICES` in `core/models.py`. -/
inductive AppStatus
  | pending
  | approved
  | disbursed
  | rejected
deriving DecidableEq, Repr

/-- `LoanType.INTEREST_RATE_CHOICES` in `core/models.py`
(`flat_rate`, `monthly_rate`, `yearly_rate`); `unsupported` stands for any
other string reaching the disbursement branch. -/
inductive RateType
  | flat_rate
  | monthly_rate
  | yearly_rate
  | unsupported
deriving DecidableEq, Repr

/-- A loan application together with the rate data of its `loan_type`
(`LoanApplication` and `LoanType` in `core/models.py`). -/
structure LoanApplication where
  amount : ℚ
  status : AppStatus
  date_disbursed : Option Date
  interest_rate : ℚ
  term_months : Nat
  interest_rate_type : RateType
deriving DecidableEq, Repr

/-- The `Loan` row of `core/models.py` (financial fields only). -/
structure Loan where
  amount : ℚ
  interest_rate : ℚ
  term_months : Nat
  balance : ℚ
  disbursed : Bool
  disbursement_date : Option Date
deriving DecidableEq, Repr

/-- A `PaymentSchedule` row of `core/models.py`. -/
structure PaymentSchedule where
  due_date : Date
  due_amount : ℚ
  principal_due : ℚ
  interest_due : ℚ
  is_paid : Bool
  date_paid : Option Date
deriving DecidableEq, Repr

/-- A `Payment` row of `core/models.py`.  `transaction_id` is a
`UUIDField(default=uuid.uuid4, editable=False, unique=True)`: modelled as a
counter freshly drawn at each creation.  The row's `payment_date` column is
`auto_now_add` (overwritten with the server time on insert) and is not
carried here. -/
structure PaymentRec where
  schedIdx : Nat
  amount_paid : ℚ
  transaction_id : Nat
deriving DecidableEq, Repr

/-! ## Loan creation at approval (`core/signals.py`) -/

/-- `create_loan_on_approval` in `core/signals.py`: the `Loan` row created
when a `LoanApplication` is saved with status `approved`.  The opening
balance is `amount + amount * interest_rate / 100` regardless of the rate
type. -/
def createLoanOnApproval (app : LoanApplication) : Loan :=
  { amount := app.amount
    interest_rate := app.interest_rate
    term_months := app.term_months
    balance := app.amount + app.amount * app.interest_rate / 100
    disbursed := false
    disbursement_date := none }

/-! ## Disbursement (`LoanApplicationViewSet.disburse`, `core/views.py`) -/

/-- Error kinds surfaced by the embedded operations (the HTTP layer returns
them as 4xx/5xx responses with a detail message). -/
inductive DisburseError
  | notApproved
  | typeError
  | unsupportedRateType
deriving DecidableEq, Repr

/-- The database state touched by disbursement: the application, its loan
row, and the loan's schedule rows (in creation order). -/
structure World where
  app : LoanApplication
  loan : Loan
  schedule : List PaymentSchedule
deriving DecidableEq, Repr

/-- The schedule-creation loop of `LoanApplicationViewSet.disburse`:
starting from `current_date`, each of the `t` iterations first advances
`current_date` by one calendar month and then creates a row with
`due_amount = mp`, `principal_due = mp`, `interest_due = 0`,
`is_paid = False`. -/
def buildSchedule (mp : ℚ) (current : Date) : Nat → List PaymentSchedule
  | 0 => []
  | Nat.succ k =>
    let d1 := addMonth current
    { due_date := d1, due_amount := mp, principal_due := mp,
      interest_due := 0, is_paid := false, date_paid := none }
      :: buildSchedule mp d1 k

/-- `LoanApplicationViewSet.disburse` in `core/views.py`, lines 232-289.

Returns the post-request database state together with the request outcome.

- If the application's status is not `approved`, a 400 response is returned
  before any write (`notApproved`).
- For a `flat_rate` loan type, inside one atomic transaction: the loan is
  marked disbursed and stamped with today's date, the application is moved
  to status `disbursed` with `date_disbursed` stamped, and `term_months`
  schedule rows are created, each one calendar month after the previous,
  with `monthly_payment = (principal + principal*rate/100) / term_months`
  as both `due_amount` and `principal_due` and with `interest_due = 0`.
- For a `monthly_rate` or `yearly_rate` loan type the Python expression
  `principal * (interest_rate / 100) * (term_months / 12)` multiplies a
  `Decimal` by a `float` (true division of two ints), which raises
  `TypeError`; the atomic block rolls back every write and the view answers
  500 (`typeError`), leaving the state unchanged.
- For any other rate-type string the view returns 400 from inside the
  atomic block; that return is a normal exit, so the status updates already
  performed are committed (`unsupportedRateType`).

The divisor `term_months` is never 0 in the verified claims; `ℚ` division
by zero (which yields 0) is therefore never exercised where Python would
raise. -/
def runDisburse (w : World) (today : Date) : World × Except DisburseError Unit :=
  if w.app.status ≠ AppStatus.approved then (w, .error .notApproved)
  else
    match w.app.interest_rate_type with
    | .flat_rate =>
      let principal := w.app.amount
      let total_interest := principal * w.app.interest_rate / 100
      let total_payable := principal + total_interest
      let monthly_payment := total_payable / (w.app.term_months : ℚ)
      ({ app := { w.app with status := .disbursed, date_disbursed := some today }
         loan := { w.loan with disbursed := true, disbursement_date := some today }
         schedule := w.schedule ++ buildSchedule monthly_payment today w.app.term_months },
       .ok ())
    | .monthly_rate => (w, .error .typeError)
    | .yearly_rate => (w, .error .typeError)
    | .unsupported =>
      ({ app := { w.app with status := .disbursed, date_disbursed := some today }
         loan := { w.loan with disbursed := true, disbursement_date := some today }
         schedule := w.schedule },
       .error .unsupportedRateType)

/-! ## Payment application (`PaymentSerializer.create`, `core/serializers.py`) -/

/-- Error kinds surfaced by `PaymentSerializer.create` (raised as DRF
`ValidationError`s, which abort the atomic block and roll back). -/
inductive PayError
  | alreadyPaid
  | noPendingSchedule
deriving DecidableEq, Repr

/-- The state of one loan as read and written by payment processing: the
loan's balance, its schedule rows (in creation order), the payment rows
recorded so far, and the supply of fresh transaction ids. -/
structure PayState where
  balance : ℚ
  schedule : List PaymentSchedule
  payments : List PaymentRec
  nextTx : Nat
deriving DecidableEq, Repr

/-- `loan.payment_schedule.filter(is_paid=False).order_by('due_date').first()`:
the unpaid schedule row with the smallest `due_date` (earliest row on
ties), together with its index in creation order. -/
def firstUnpaidByDueDate : List PaymentSchedule → Option (Nat × PaymentSchedule)
  | [] => none
  | e :: es =>
    match firstUnpaidByDueDate es with
    | none => if e.is_paid then none else some (0, e)
    | some (j, f) =>
      if e.is_paid then some (j + 1, f)
      else if Date.Le e.due_date f.due_date then some (0, e)
      else some (j + 1, f)

/-- The first unpaid row in creation order (used to state, under the
sortedness that generated schedules enjoy, that the due-date-ordered query
selects the earliest unpaid row of the sequence). -/
def firstUnpaidBySequence : List PaymentSchedule → Option (Nat × PaymentSchedule)
  | [] => none
  | e :: es =>
    if e.is_paid then (firstUnpaidBySequence es).map (fun p => (p.1 + 1, p.2))
    else some (0, e)

/-- Sum of `principal_due + interest_due` over the unpaid schedule rows —
the quantity the specified ledger invariant compares with `balance`. -/
def unpaidSum (l : List PaymentSchedule) : ℚ :=
  ((l.filter (fun e => !e.is_paid)).map (fun e => e.principal_due + e.interest_due)).sum

/-- `PaymentSerializer.create` in `core/serializers.py`, lines 95-149,
inside `with transaction.atomic()`:

1. if `loan.balance <= 0`, fail ("loan already fully paid");
2. select the unpaid schedule row with the earliest `due_date`; if none,
   fail ("no pending payment schedules");
3. `loan.balance -= amount_paid` (no positivity check on the amount; the
   schedule row's `principal_due` / `interest_due` are never touched);
4. create the `Payment` row with a freshly generated `transaction_id`
   (the serializer declares `transaction_id` read-only, so `requestedTx`,
   a caller-supplied id, is ignored);
5. if the new balance is `<= 0` or `amount_paid >= due_amount`, mark the
   selected row `is_paid = True` with `date_paid` set to the submitted
   payment date.

(The assignments `loan.status = 'paid'` and `payment_schedule.status =
'paid'` in the source set attributes that are not model fields; they are
never persisted and are omitted.) -/
def applyPayment (s : PayState) (amount : ℚ) (payDate : Date)
    (requestedTx : Option Nat) : Except PayError (PayState × PaymentRec) :=
  if s.balance ≤ 0 then .error .alreadyPaid
  else
    match firstUnpaidByDueDate s.schedule with
    | none => .error .noPendingSchedule
    | some (j, e) =>
      let newBalance := s.balance - amount
      let pay : PaymentRec :=
        { schedIdx := j, amount_paid := amount, transaction_id := s.nextTx }
      let newEntry :=
        if newBalance ≤ 0 ∨ e.due_amount ≤ amount
        then { e with is_paid := true, date_paid := some payDate }
        else e
      .ok ({ balance := newBalance
             schedule := s.schedule.set j newEntry
             payments := s.payments ++ [pay]
             nextTx := s.nextTx + 1 }, pay)

/-! ## `PaymentAPIView.post` (`core/views.py`, lines 812-849) -/

/-- Outcomes of `PaymentAPIView.post`. -/
inductive ApiError
  | loanNotFound
  | invalidAmount
  | invalidKeywordArgument
deriving DecidableEq, Repr

/-- `PaymentAPIView.post` in `core/views.py`, lines 812-849, decorated
`@transaction.atomic`:

1. `Loan.objects.get(pk=loan_id, disbursed=True)` — a missing or
   undisbursed loan answers 404 (`loanNotFound`);
2. `amount_paid <= 0` answers 400 (`invalidAmount`) before any state is
   touched;
3. otherwise the handler decrements `loan.balance` in memory and then
   calls `Payment.objects.create(loan=loan, ...)`.  `Payment` has no
   `loan` field (its relation is `payment_schedule`), so Django raises
   `TypeError("'loan' is an invalid keyword argument")`; the atomic
   transaction rolls back and the request answers 500 with nothing
   persisted (`invalidKeywordArgument`).

The returned state is the committed database state: unchanged on every
path. -/
def paymentAPIPost (loan : Option Loan) (s : PayState) (amount : ℚ) :
    PayState × Except ApiError Unit :=
  match loan with
  | none => (s, .error .loanNotFound)
  | some l =>
    if !l.disbursed then (s, .error .loanNotFound)
    else if amount ≤ 0 then (s, .error .invalidAmount)
    else (s, .error .invalidKeywordArgument)

/-! ## Derived predicates -/

/-- Strict due-date order between two schedule rows. -/
def dueLt (a b : PaymentSchedule) : Prop := Date.Lt a.due_date b.due_date

instance (a b : PaymentSchedule) : Decidable (dueLt a b) := by
  unfold dueLt; exact inferInstance

/-- Row `b` falls exactly one calendar month after row `a`. -/
def dueStep (a b : PaymentSchedule) : Prop := b.due_date = addMonth a.due_date

/-- A schedule whose rows carry strictly increasing due dates. -/
def SortedByDue (l : List PaymentSchedule) : Prop := List.Pairwise dueLt l

/-- The specified ledger reconciliation: the loan's balance equals the sum
of `principal_due + interest_due` over the unpaid schedule rows. -/
def LedgerInvariant (balance : ℚ) (l : List PaymentSchedule) : Prop :=
  balance = unpaidSum l

/-! ## Concrete states used by witnesses and counterexamples -/

/-- The spec's FLAT scenario: 1200 principal, 10 percent flat rate,
12 months, approved. -/
def exApp : LoanApplication :=
  { amount := 1200, status := .approved, date_disbursed := none,
    interest_rate := 10, term_months := 12, interest_rate_type := .flat_rate }

/-- The spec's MONTHLY scenario: 1000 principal, 2 percent per month,
6 months, approved. -/
def exAppMonthly : LoanApplication :=
  { amount := 1000, status := .approved, date_disbursed := none,
    interest_rate := 2, term_months := 6, interest_rate_type := .monthly_rate }

/-- Disbursement date used in the concrete scenarios. -/
def exToday : Date := { year := 2026, month := 1, day := 15 }

/-- Payment date used in the concrete scenarios. -/
def exPayDate : Date := { year := 2026, month := 2, day := 20 }

/-- Database state of the FLAT scenario just before disbursement: the loan
row was created by the approval signal and no schedule rows exist. -/
def exWorld : World :=
  { app := exApp, loan := createLoanOnApproval exApp, schedule := [] }

/-- Database state of the MONTHLY scenario just before disbursement. -/
def exWorldMonthly : World :=
  { app := exAppMonthly, loan := createLoanOnApproval exAppMonthly, schedule := [] }

/-- The FLAT scenario after disbursement. -/
def exDisbursed : World := (runDisburse exWorld exToday).1

/-- A single-row state matching the spec's interest-first example: the
current entry owes 100.00 principal and 10.00 interest. -/
def cexEntry : PaymentSchedule :=
  { due_date := { year := 2026, month := 2, day := 15 }, due_amount := 110,
    principal_due := 100, interest_due := 10, is_paid := false, date_paid := none }

/-- Loan state holding exactly `cexEntry`, balance 110. -/
def cexState : PayState :=
  { balance := 110, schedule := [cexEntry], payments := [], nextTx := 0 }

/-- Two submissions of the same caller-supplied transaction id, applied in
sequence; `none` when either application fails. -/
def applyTwice (s : PayState) (amount : ℚ) (payDate : Date)
    (requestedTx : Option Nat) : Option PayState :=
  match applyPayment s amount payDate requestedTx with
  | .error _ => none
  | .ok (s1, _) =>
    match applyPayment s1 amount payDate requestedTx with
    | .error _ => none
    | .ok (s2, _) => some s2

/-- A disbursed loan row for exercising `PaymentAPIView.post`. -/
def exLoanRow : Loan :=
  { amount := 1200, interest_rate := 10, term_months := 12, balance := 1320,
    disbursed := true, disbursement_date := some exToday }

/-- The first schedule row of the disbursed FLAT scenario: due one calendar
month after `exToday`, installment 110 recorded wholly as principal. -/
def exFirstEntry : PaymentSchedule :=
  { due_date := { year := 2026, month := 2, day := 15 }, due_amount := 110,
    principal_due := 110, interest_due := 0, is_paid := false, date_paid := none }

/-- A still-pending application (never approved). -/
def exAppPending : LoanApplication :=
  { amount := 1200, status := .pending, date_disbursed := none,
    interest_rate := 10, term_months := 12, interest_rate_type := .flat_rate }

/-- World holding the pending application. -/
def exWorldPending : World :=
  { app := exAppPending, loan := createLoanOnApproval exAppPending, schedule := [] }

/-- Second schedule row of the two-installment ledger below, due one month
after the first. -/
def exEntry2 : PaymentSchedule :=
  { due_date := { year := 2026, month := 3, day := 15 }, due_amount := 110,
    principal_due := 110, interest_due := 0, is_paid := false, date_paid := none }

/-- A small concrete ledger in the shape disbursement produces: two
unpaid rows of 110 each, balance 220 (the sum of the unpaid dues). -/
def twoEntryState : PayState :=
  { balance := 220, schedule := [exFirstEntry, exEntry2], payments := [], nextTx := 0 }

/-- `twoEntryState` after a payment of exactly the first installment:
balance 110, first row paid and dated, one payment row recorded. -/
def afterFirstFull : PayState :=
  { balance := 110,
    schedule := [{ exFirstEntry with is_paid := true, date_paid := some exPayDate },
                 exEntry2],
    payments := [{ schedIdx := 0, amount_paid := 110, transaction_id := 0 }],
    nextTx := 1 }

/-- `afterFirstFull` after a second payment of 110: balance 0, both rows
paid, two payment rows with distinct transaction ids. -/
def afterBothFull : PayState :=
  { balance := 0,
    schedule := [{ exFirstEntry with is_paid := true, date_paid := some exPayDate },
                 { exEntry2 with is_paid := true, date_paid := some exPayDate }],
    payments := [{ schedIdx := 0, amount_paid := 110, transaction_id := 0 },
                 { schedIdx := 1, amount_paid := 110, transaction_id := 1 }],
    nextTx := 2 }

/-- `twoEntryState` after a partial payment of 5: the balance drops to 215
while both schedule rows are untouched, so balance and unpaid dues
disagree by 5. -/
def twoAfterPartial : PayState :=
  { balance := 215, schedule := [exFirstEntry, exEntry2],
    payments := [{ schedIdx := 0, amount_paid := 5, transaction_id := 0 }],
    nextTx := 1 }

/-- `cexState` after a payment of 5: balance 105; the entry's 100.00
principal and 10.00 interest components are untouched. -/
def cexAfter5 : PayState :=
  { balance := 105, schedule := [cexEntry],
    payments := [{ schedIdx := 0, amount_paid := 5, transaction_id := 0 }],
    nextTx := 1 }

/-- `cexState` after an accepted payment of -50: the balance rises to
160. -/
def cexAfterNeg : PayState :=
  { balance := 160, schedule := [cexEntry],
    payments := [{ schedIdx := 0, amount_paid := -50, transaction_id := 0 }],
    nextTx := 1 }

/-! ## Helper lemmas -/

theorem Date.lt_addMonth (d : Date) : Date.Lt d (addMonth d) := by
  unfold addMonth
  split
  · exact Or.inl (Nat.lt_succ_self _)
  · exact Or.inr ⟨rfl, Or.inl (Nat.lt_succ_self _)⟩

theorem Date.Lt_trans {a b c : Date} (h1 : Date.Lt a b) (h2 : Date.Lt b c) :
    Date.Lt a c := by
  unfold Date.Lt at *
  omega

instance : IsTrans PaymentSchedule dueLt :=
  ⟨fun _ _ _ h1 h2 => Date.Lt_trans h1 h2⟩

theorem buildSchedule_length (mp : ℚ) (d : Date) (t : Nat) :
    (buildSchedule mp d t).length = t := by
  induction t generalizing d with
  | zero => rfl
  | succ k ih => simp [buildSchedule, ih]

theorem mem_buildSchedule {mp : ℚ} {d : Date} {t : Nat} {e : PaymentSchedule}
    (h : e ∈ buildSchedule mp d t) :
    e.due_amount = mp ∧ e.principal_due = mp ∧ e.interest_due = 0 ∧
      e.is_paid = false := by
  induction t generalizing d with
  | zero => simp [buildSchedule] at h
  | succ k ih =>
    simp only [buildSchedule, List.mem_cons] at h
    rcases h with h | h
    · subst h; exact ⟨rfl, rfl, rfl, rfl⟩
    · exact ih h

theorem unpaidSum_nil : unpaidSum [] = 0 := rfl

theorem unpaidSum_cons (e : PaymentSchedule) (l : List PaymentSchedule) :
    unpaidSum (e :: l) =
      (if e.is_paid then 0 else e.principal_due + e.interest_due) + unpaidSum l := by
  unfold unpaidSum
  cases hp : e.is_paid <;> simp [List.filter_cons, hp]

theorem unpaidSum_buildSchedule (mp : ℚ) (d : Date) (t : Nat) :
    unpaidSum (buildSchedule mp d t) = (t : ℚ) * mp := by
  induction t generalizing d with
  | zero => simp [buildSchedule, unpaidSum_nil]
  | succ k ih =>
    rw [buildSchedule, unpaidSum_cons, ih]
    simp only [if_neg]
    push_cast
    ring

theorem mem_of_get?_eq_some {α : Type} {l : List α} {j : Nat} {a : α}
    (h : l.get? j = some a) : a ∈ l := by
  induction l generalizing j with
  | nil => simp at h
  | cons b t ih =>
    cases j with
    | zero => simp at h; subst h; exact List.mem_cons_self _ _
    | succ n => exact List.mem_cons_of_mem _ (ih (by simpa using h))

theorem get?_set_self {α : Type} {l : List α} {j : Nat} {a : α}
    (h : l.get? j = some a) (x : α) : (l.set j x).get? j = some x := by
  induction l generalizing j with
  | nil => simp at h
  | cons b t ih =>
    cases j with
    | zero => rfl
    | succ n => simpa using ih (by simpa using h)

theorem map_set_eq_of_eq {α β : Type} (f : α → β) {l : List α} {j : Nat}
    {a x : α} (h : l.get? j = some a) (hx : f x = f a) :
    (l.set j x).map f = l.map f := by
  induction l generalizing j with
  | nil => simp at h
  | cons b t ih =>
    cases j with
    | zero =>
      simp at h; subst h
      simp [List.set, hx]
    | succ n =>
      simpa [List.set] using ih (by simpa using h)

theorem unpaidSum_set_paid {l : List PaymentSchedule} {j : Nat}
    {e x : PaymentSchedule} (h : l.get? j = some e) (he : e.is_paid = false)
    (hx : x.is_paid = true) :
    unpaidSum (l.set j x) = unpaidSum l - (e.principal_due + e.interest_due) := by
  induction l generalizing j with
  | nil => simp at h
  | cons a t ih =>
    cases j with
    | zero =>
      simp at h; subst h
      simp [List.set, unpaidSum_cons, he, hx]
    | succ n =>
      have h' : t.get? n = some e := by simpa using h
      simp only [List.set, unpaidSum_cons, ih h']
      ring

theorem firstUnpaidByDueDate_spec {l : List PaymentSchedule} {j : Nat}
    {e : PaymentSchedule} (h : firstUnpaidByDueDate l = some (j, e)) :
    l.get? j = some e ∧ e.is_paid = false := by
  induction l generalizing j with
  | nil => simp [firstUnpaidByDueDate] at h
  | cons a t ih =>
    rw [firstUnpaidByDueDate] at h
    cases hfu : firstUnpaidByDueDate t with
    | none =>
      rw [hfu] at h
      cases hp : a.is_paid with
      | true => simp [hp] at h
      | false =>
        simp [hp] at h
        obtain ⟨hj, he⟩ := h
        subst hj; subst he
        exact ⟨rfl, hp⟩
    | some p =>
      obtain ⟨j0, f⟩ := p
      rw [hfu] at h
      cases hp : a.is_paid with
      | true =>
        simp [hp] at h
        obtain ⟨hj, he⟩ := h
        subst hj; subst he
        exact ⟨by simpa using (ih hfu).1, (ih hfu).2⟩
      | false =>
        simp [hp] at h
        by_cases hle : Date.Le a.due_date f.due_date
        · rw [if_pos hle] at h
          simp at h
          obtain ⟨hj, he⟩ := h
          subst hj; subst he
          exact ⟨rfl, hp⟩
        · rw [if_neg hle] at h
          simp at h
          obtain ⟨hj, he⟩ := h
          subst hj; subst he
          exact ⟨by simpa using (ih hfu).1, (ih hfu).2⟩

theorem firstUnpaidByDueDate_eq_bySequence {l : List PaymentSchedule}
    (h : SortedByDue l) : firstUnpaidByDueDate l = firstUnpaidBySequence l := by
  induction l with
  | nil => rfl
  | cons a t ih =>
    obtain ⟨h1, h2⟩ := List.pairwise_cons.mp h
    have heq := ih h2
    rw [firstUnpaidByDueDate, firstUnpaidBySequence, heq]
    cases hfu : firstUnpaidBySequence t with
    | none => cases hp : a.is_paid <;> simp [hp]
    | some p =>
      obtain ⟨j0, f⟩ := p
      cases hp : a.is_paid with
      | true => simp [hp]
      | false =>
        have hf : f ∈ t :=
          mem_of_get?_eq_some (firstUnpaidByDueDate_spec (heq ▸ hfu)).1
        have hle : Date.Le a.due_date f.due_date := Or.inl (h1 f hf)
        simp [hp, if_pos hle]

theorem firstUnpaidBySequence_set_paid {l : List PaymentSchedule} {j : Nat}
    {e x : PaymentSchedule} (h : firstUnpaidBySequence l = some (j, e))
    (hx : x.is_paid = true) :
    firstUnpaidBySequence (l.set j x) =
      (firstUnpaidBySequence (l.drop (j + 1))).map (fun p => (j + 1 + p.1, p.2)) := by
  induction l generalizing j with
  | nil => simp [firstUnpaidBySequence] at h
  | cons a t ih =>
    rw [firstUnpaidBySequence] at h
    cases hp : a.is_paid with
    | false =>
      rw [hp] at h
      simp at h
      obtain ⟨hj, he⟩ := h
      subst hj; subst he
      show firstUnpaidBySequence (x :: t) = _
      rw [firstUnpaidBySequence, hx]
      simp
      cases firstUnpaidBySequence t <;> simp [Nat.add_comm]
    | true =>
      rw [hp] at h
      cases hft : firstUnpaidBySequence t with
      | none => rw [hft] at h; simp at h
      | some p =>
        obtain ⟨j0, f⟩ := p
        rw [hft] at h
        simp at h
        obtain ⟨hj, he⟩ := h
        subst he
        have hj' : j = j0 + 1 := by omega
        subst hj'
        show firstUnpaidBySequence (a :: t.set j0 x) = _
        rw [firstUnpaidBySequence, hp]
        simp only [ih hft]
        have hd : (a :: t).drop (j0 + 1 + 1) = t.drop (j0 + 1) := rfl
        rw [hd]
        cases hY : firstUnpaidBySequence (t.drop (j0 + 1)) with
        | none => rfl
        | some q =>
          obtain ⟨k, g⟩ := q
          show some (j0 + 1 + k + 1, g) = some (j0 + 1 + 1 + k, g)
          have harith : j0 + 1 + k + 1 = j0 + 1 + 1 + k := by omega
          rw [harith]

theorem sortedByDue_set {l : List PaymentSchedule} {j : Nat}
    {e x : PaymentSchedule} (h : SortedByDue l) (hg : l.get? j = some e)
    (hx : x.due_date = e.due_date) : SortedByDue (l.set j x) := by
  induction l generalizing j with
  | nil => simpa using h
  | cons a t ih =>
    obtain ⟨h1, h2⟩ := List.pairwise_cons.mp h
    cases j with
    | zero =>
      simp at hg; subst hg
      refine List.pairwise_cons.mpr ⟨?_, h2⟩
      intro b hb
      unfold dueLt
      rw [hx]
      exact h1 b hb
    | succ n =>
      have hg' : t.get? n = some e := by simpa using hg
      refine List.pairwise_cons.mpr ⟨?_, ih h2 hg'⟩
      intro b hb
      rcases List.mem_or_eq_of_mem_set hb with hb' | rfl
      · exact h1 b hb'
      · unfold dueLt
        rw [hx]
        exact h1 e (mem_of_get?_eq_some hg')

theorem buildSchedule_chain_step (mp : ℚ) (d : Date) (t : Nat) :
    List.Chain' dueStep (buildSchedule mp d t) := by
  induction t generalizing d with
  | zero => simp [buildSchedule]
  | succ k ih =>
    cases k with
    | zero => simp [buildSchedule]
    | succ k2 =>
      rw [buildSchedule]
      refine List.chain'_cons.mpr ⟨?_, ?_⟩
      · rfl
      · exact ih (addMonth d)

theorem buildSchedule_chain_lt (mp : ℚ) (d : Date) (t : Nat) :
    List.Chain' dueLt (buildSchedule mp d t) :=
  (buildSchedule_chain_step mp d t).imp (fun a b h => by
    unfold dueStep at h
    unfold dueLt
    rw [h]
    exact Date.lt_addMonth _)

theorem buildSchedule_sorted (mp : ℚ) (d : Date) (t : Nat) :
    SortedByDue (buildSchedule mp d t) :=
  List.chain'_iff_pairwise.mp (buildSchedule_chain_lt mp d t)

theorem applyPayment_ok {s : PayState} {amount : ℚ} {payDate : Date}
    {tx : Option Nat} {s' : PayState} {pay : PaymentRec}
    (h : applyPayment s amount payDate tx = .ok (s', pay)) :
    ∃ j e, firstUnpaidByDueDate s.schedule = some (j, e) ∧
      ¬ s.balance ≤ 0 ∧
      pay = { schedIdx := j, amount_paid := amount, transaction_id := s.nextTx } ∧
      s' = { balance := s.balance - amount
             schedule := s.schedule.set j
               (if s.balance - amount ≤ 0 ∨ e.due_amount ≤ amount
                then { e with is_paid := true, date_paid := some payDate }
                else e)
             payments := s.payments ++ [pay]
             nextTx := s.nextTx + 1 } := by
  unfold applyPayment at h
  by_cases hb : s.balance ≤ 0
  · rw [if_pos hb] at h
    exact absurd h (by simp)
  · rw [if_neg hb] at h
    cases hfu : firstUnpaidByDueDate s.schedule with
    | none =>
      rw [hfu] at h
      exact absurd h (by simp)
    | some p =>
      obtain ⟨j, e⟩ := p
      rw [hfu] at h
      simp only [Except.ok.injEq, Prod.mk.injEq] at h
      obtain ⟨hs', hpay⟩ := h
      refine ⟨j, e, rfl, hb, hpay.symm, ?_⟩
      rw [← hs', ← hpay]

/-! ## Claim theorems -/

/-- Claim C9: disbursement on an application whose status is not
`approved` fails with a NotApproved error and changes nothing; on success
it sets the application's status to `disbursed` and stamps the
disbursement date, so a second disbursement attempt for the same
application fails. -/
theorem C9_disburse_gating (w : World) (d d' : Date) :
    (w.app.status ≠ AppStatus.approved →
      runDisburse w d = (w, .error .notApproved)) ∧
    (∀ w' : World, runDisburse w d = (w', .ok ()) →
      w'.app.status = AppStatus.disbursed ∧
      w'.app.date_disbursed = some d ∧
      runDisburse w' d' = (w', .error .notApproved)) := by
  constructor
  · intro hs
    unfold runDisburse
    rw [if_pos hs]
  · intro w' h
    unfold runDisburse at h
    by_cases hs : w.app.status ≠ AppStatus.approved
    · rw [if_pos hs] at h
      simp at h
    · rw [if_neg hs] at h
      cases hr : w.app.interest_rate_type with
      | flat_rate =>
        rw [hr] at h
        simp only [Prod.mk.injEq] at h
        obtain ⟨hw, _⟩ := h
        subst hw
        refine ⟨rfl, rfl, ?_⟩
        unfold runDisburse
        rw [if_pos (by simp)]
      | monthly_rate => rw [hr] at h; simp at h
      | yearly_rate => rw [hr] at h; simp at h
      | unsupported => rw [hr] at h; simp at h

/-- Witness for C9: the pending application is rejected untouched; the
approved FLAT application is moved to status `disbursed` with the date
stamped, and disbursing the result again fails. -/
theorem C9_disburse_gating_witness :
    runDisburse exWorldPending exToday = (exWorldPending, .error .notApproved) ∧
    (exDisbursed.app.status = AppStatus.disbursed ∧
     exDisbursed.app.date_disbursed = some exToday ∧
     runDisburse exDisbursed exPayDate = (exDisbursed, .error .notApproved)) := by
  constructor
  · exact (C9_disburse_gating exWorldPending exToday exPayDate).1 (by decide)
  · exact (C9_disburse_gating exWorld exToday exPayDate).2 exDisbursed rfl

/-- Claim C10: every request to `PaymentAPIView.post` that passes its
validation (existing disbursed loan, positive amount) raises an error
before committing and persists nothing: the `Payment` record is
constructed with a `loan` keyword that is not a field of the `Payment`
model, and because the handler runs in an atomic transaction, the balance
decrement is rolled back and the loan is unchanged. -/
theorem C10_payment_api_always_errors (l : Loan) (s : PayState) (a : ℚ)
    (hd : l.disbursed = true) (ha : 0 < a) :
    paymentAPIPost (some l) s a = (s, .error .invalidKeywordArgument) := by
  simp [paymentAPIPost, hd, not_le.mpr ha]

/-- Witness for C10: a valid payment of 50 against a disbursed loan
errors out with the invalid-keyword failure and leaves the state
untouched. -/
theorem C10_payment_api_always_errors_witness :
    paymentAPIPost (some exLoanRow) cexState 50 =
      (cexState, .error .invalidKeywordArgument) :=
  C10_payment_api_always_errors exLoanRow cexState 50 rfl (by norm_num)

/-- Claim C4, amended: disbursing a MONTHLY-rate loan does not produce
annuity installments — `LoanApplicationViewSet.disburse` raises a
`TypeError` (a `Decimal` multiplied by a `float` in the interest
computation), the transaction rolls back, and no schedule entry is
created. -/
theorem C4_monthly_disburse_type_error (w : World) (d : Date)
    (hs : w.app.status = AppStatus.approved)
    (hr : w.app.interest_rate_type = RateType.monthly_rate) :
    runDisburse w d = (w, .error .typeError) := by
  unfold runDisburse
  rw [if_neg (by simp [hs]), hr]

/-- Counterexample for C4 as stated: for the spec's concrete MONTHLY
scenario (1000 principal, 2 percent per month, 6 months) disbursement
fails and the schedule stays empty, so no first entry with
`interest_due = 20.00` exists. -/
theorem C4_counterexample :
    (runDisburse exWorldMonthly exToday).2 = .error .typeError ∧
    ((runDisburse exWorldMonthly exToday).1.schedule.head?.map
      (fun e => e.interest_due)) = none := by
  exact ⟨rfl, rfl⟩

/-- Witness for C4: the amended theorem applied to the concrete MONTHLY
scenario. -/
theorem C4_monthly_disburse_type_error_witness :
    runDisburse exWorldMonthly exToday = (exWorldMonthly, .error .typeError) :=
  C4_monthly_disburse_type_error exWorldMonthly exToday rfl rfl

/-- Claim C3, amended: for a FLAT-rate loan the generated schedule has
`term_months` entries, each with
`due_amount = (principal + principal*rate/100) / term_months`; the whole
installment is recorded as `principal_due` and `interest_due` is 0 (the
code does not split the installment into the spec's 100.00 / 10.00
components). -/
theorem C3_flat_schedule_shape (w : World) (d : Date)
    (hs : w.app.status = AppStatus.approved)
    (hr : w.app.interest_rate_type = RateType.flat_rate)
    (h0 : w.schedule = []) :
    (runDisburse w d).1.schedule.length = w.app.term_months ∧
    ∀ e ∈ (runDisburse w d).1.schedule,
      e.due_amount =
        (w.app.amount + w.app.amount * w.app.interest_rate / 100) /
          (w.app.term_months : ℚ) ∧
      e.principal_due = e.due_amount ∧
      e.interest_due = 0 := by
  unfold runDisburse
  rw [if_neg (by simp [hs]), hr]
  simp only [h0, List.nil_append]
  constructor
  · exact buildSchedule_length _ _ _
  · intro e he
    obtain ⟨h1, h2, h3, _⟩ := mem_buildSchedule he
    exact ⟨h1, by rw [h2, h1], h3⟩

/-- Counterexample for C3 as stated: in the concrete FLAT scenario
(1200, 10 percent, 12 months) the first entry's `principal_due` is the
whole 110.00 installment and its `interest_due` is 0, not the claimed
100.00 / 10.00 split. -/
theorem C3_counterexample :
    (exDisbursed.schedule.head?.map
      (fun e => (e.principal_due, e.interest_due))) = some (110, 0) ∧
    ¬ ((110 : ℚ) = 1200 / 12 ∧ (0 : ℚ) = 1200 * 10 / 100 / 12) := by
  constructor
  · norm_num [exDisbursed, exWorld, exApp, exToday, runDisburse, buildSchedule]
  · intro h
    have := h.1
    norm_num at this

/-- Witness for C3: the amended theorem applied to the concrete FLAT
scenario. -/
theorem C3_flat_schedule_shape_witness :
    exDisbursed.schedule.length = 12 ∧
    ∀ e ∈ exDisbursed.schedule,
      e.due_amount = (1200 + 1200 * 10 / 100) / (12 : ℚ) ∧
      e.principal_due = e.due_amount ∧
      e.interest_due = 0 :=
  C3_flat_schedule_shape exWorld exToday rfl rfl rfl

/-- Claim C5: for every generated schedule, the first entry's due date is
the disbursement date plus one calendar month, each subsequent entry's due
date is exactly one calendar month after the previous entry's
(calendar-month arithmetic via `relativedelta`, not a fixed 30-day step),
and due dates are strictly increasing with sequence. -/
theorem C5_due_dates (w : World) (d : Date)
    (hs : w.app.status = AppStatus.approved)
    (hr : w.app.interest_rate_type = RateType.flat_rate)
    (h0 : w.schedule = [])
    (ht : w.app.term_months ≠ 0) :
    ((runDisburse w d).1.schedule.head?.map (fun e => e.due_date) =
      some (addMonth d)) ∧
    List.Chain' dueStep (runDisburse w d).1.schedule ∧
    SortedByDue (runDisburse w d).1.schedule := by
  unfold runDisburse
  rw [if_neg (by simp [hs]), hr]
  simp only [h0, List.nil_append]
  refine ⟨?_, buildSchedule_chain_step _ _ _, buildSchedule_sorted _ _ _⟩
  cases hT : w.app.term_months with
  | zero => exact absurd hT ht
  | succ k => rw [buildSchedule]; rfl

/-- Witness for C5: in the concrete FLAT scenario disbursed on
2026-01-15 the first installment is due 2026-02-15, each next entry is one
calendar month later, and the due dates strictly increase. -/
theorem C5_due_dates_witness :
    (exDisbursed.schedule.head?.map (fun e => e.due_date) =
      some (addMonth exToday)) ∧
    List.Chain' dueStep exDisbursed.schedule ∧
    SortedByDue exDisbursed.schedule :=
  C5_due_dates exWorld exToday rfl rfl rfl (by decide)

theorem firstUnpaid_twoEntry :
    firstUnpaidByDueDate twoEntryState.schedule = some (0, exFirstEntry) := by
  rfl

theorem firstUnpaid_afterFirstFull :
    firstUnpaidByDueDate afterFirstFull.schedule = some (1, exEntry2) := by
  rfl

theorem firstUnpaid_cexState :
    firstUnpaidByDueDate cexState.schedule = some (0, cexEntry) := by
  rfl

theorem applyPayment_twoEntry_full (tx : Option Nat) :
    applyPayment twoEntryState 110 exPayDate tx =
      .ok (afterFirstFull, { schedIdx := 0, amount_paid := 110, transaction_id := 0 }) := by
  unfold applyPayment
  rw [firstUnpaid_twoEntry]
  norm_num [twoEntryState, afterFirstFull, exFirstEntry, exEntry2, List.set]

theorem applyPayment_twoEntry_second (tx : Option Nat) :
    applyPayment afterFirstFull 110 exPayDate tx =
      .ok (afterBothFull, { schedIdx := 1, amount_paid := 110, transaction_id := 1 }) := by
  unfold applyPayment
  rw [firstUnpaid_afterFirstFull]
  norm_num [afterFirstFull, afterBothFull, exFirstEntry, exEntry2, List.set]

theorem applyPayment_twoEntry_five :
    applyPayment twoEntryState 5 exPayDate none =
      .ok (twoAfterPartial, { schedIdx := 0, amount_paid := 5, transaction_id := 0 }) := by
  unfold applyPayment
  rw [firstUnpaid_twoEntry]
  norm_num [twoEntryState, twoAfterPartial, exFirstEntry, exEntry2, List.set]

theorem applyPayment_cex_5 :
    applyPayment cexState 5 exPayDate none =
      .ok (cexAfter5, { schedIdx := 0, amount_paid := 5, transaction_id := 0 }) := by
  unfold applyPayment
  rw [firstUnpaid_cexState]
  norm_num [cexState, cexAfter5, cexEntry, List.set]

theorem applyPayment_cex_neg :
    applyPayment cexState (-50) exPayDate none =
      .ok (cexAfterNeg, { schedIdx := 0, amount_paid := -50, transaction_id := 0 }) := by
  unfold applyPayment
  rw [firstUnpaid_cexState]
  norm_num [cexState, cexAfterNeg, cexEntry, List.set]

/-- Claim C1, amended: the ledger invariant
`balance = sum(principal_due + interest_due over unpaid entries)` holds
after flat-rate schedule creation at disbursement, and is preserved by a
payment of exactly the current entry's `due_amount`; it is not preserved
by other payment amounts, because payment application decrements the
balance by the submitted amount without ever updating the schedule rows'
`principal_due` / `interest_due`. -/
theorem C1_ledger_invariant :
    (∀ (w : World) (d : Date),
      w.app.status = AppStatus.approved →
      w.app.interest_rate_type = RateType.flat_rate →
      w.app.term_months ≠ 0 →
      w.loan = createLoanOnApproval w.app →
      w.schedule = [] →
      LedgerInvariant (runDisburse w d).1.loan.balance
        (runDisburse w d).1.schedule) ∧
    (∀ (s : PayState) (d : Date) (tx : Option Nat) (j : Nat)
        (e : PaymentSchedule) (s' : PayState) (pay : PaymentRec),
      LedgerInvariant s.balance s.schedule →
      (∀ f ∈ s.schedule, f.due_amount = f.principal_due + f.interest_due) →
      firstUnpaidByDueDate s.schedule = some (j, e) →
      applyPayment s e.due_amount d tx = .ok (s', pay) →
      LedgerInvariant s'.balance s'.schedule) := by
  constructor
  · intro w d hs hr ht hL h0
    unfold LedgerInvariant
    unfold runDisburse
    rw [if_neg (by simp [hs]), hr]
    simp only [h0, List.nil_append]
    rw [unpaidSum_buildSchedule, hL]
    show w.app.amount + w.app.amount * w.app.interest_rate / 100 = _
    have htQ : (w.app.term_months : ℚ) ≠ 0 := Nat.cast_ne_zero.mpr ht
    rw [← mul_div_assoc, mul_div_cancel_left₀ _ htQ]
  · intro s d tx j e s' pay hInv hAll hfu hOk
    obtain ⟨j', e', hfu', hb, hpay, hs'⟩ := applyPayment_ok hOk
    rw [hfu] at hfu'
    simp only [Option.some.injEq, Prod.mk.injEq] at hfu'
    obtain ⟨hj, he⟩ := hfu'
    subst hj; subst he
    have hget := firstUnpaidByDueDate_spec hfu
    have hmem : e ∈ s.schedule := mem_of_get?_eq_some hget.1
    have hdue := hAll e hmem
    subst hs'
    unfold LedgerInvariant at hInv ⊢
    simp only
    rw [if_pos (Or.inr le_rfl)]
    rw [unpaidSum_set_paid hget.1 hget.2 rfl, ← hInv, hdue]

/-- Counterexample for C1 as stated: a partial payment of 5 against the
two-installment ledger leaves the unpaid dues at 220 while the balance
drops to 215, a discrepancy of 5, far beyond the 0.01 rounding
tolerance. -/
theorem C1_counterexample :
    applyPayment twoEntryState 5 exPayDate none =
      .ok (twoAfterPartial, { schedIdx := 0, amount_paid := 5, transaction_id := 0 }) ∧
    twoAfterPartial.balance = 215 ∧
    unpaidSum twoAfterPartial.schedule = 220 ∧
    ¬ (|twoAfterPartial.balance - unpaidSum twoAfterPartial.schedule| ≤ 1 / 100) := by
  refine ⟨applyPayment_twoEntry_five, rfl, ?_, ?_⟩
  · norm_num [unpaidSum, twoAfterPartial, exFirstEntry, exEntry2]
  · norm_num [unpaidSum, twoAfterPartial, exFirstEntry, exEntry2]

/-- Witness for C1: the invariant holds after disbursing the concrete
FLAT scenario, and an exact-installment payment against the
two-installment ledger preserves it. -/
theorem C1_ledger_invariant_witness :
    LedgerInvariant (runDisburse exWorld exToday).1.loan.balance
      (runDisburse exWorld exToday).1.schedule ∧
    LedgerInvariant afterFirstFull.balance afterFirstFull.schedule := by
  constructor
  · exact C1_ledger_invariant.1 exWorld exToday rfl rfl (by decide) rfl rfl
  · exact C1_ledger_invariant.2 twoEntryState exPayDate none 0 exFirstEntry
      afterFirstFull { schedIdx := 0, amount_paid := 110, transaction_id := 0 }
      (by unfold LedgerInvariant; norm_num [twoEntryState, unpaidSum, exFirstEntry, exEntry2])
      (by intro f hf
          simp only [twoEntryState, List.mem_cons, List.not_mem_nil, or_false] at hf
          rcases hf with rfl | rfl <;> norm_num [exFirstEntry, exEntry2])
      firstUnpaid_twoEntry
      (applyPayment_twoEntry_full none)

/-- Claim C2, amended: applying a payment of amount `a <= interest_due`
against the current entry leaves `principal_due` unchanged and leaves
`interest_due` unchanged as well — payment processing never modifies any
schedule row's interest or principal component (proved here for every
accepted payment, of any amount). -/
theorem C2_components_unchanged (s : PayState) (a : ℚ) (d : Date)
    (tx : Option Nat) (s' : PayState) (pay : PaymentRec)
    (h : applyPayment s a d tx = .ok (s', pay)) :
    s'.schedule.map (fun e => e.principal_due) =
      s.schedule.map (fun e => e.principal_due) ∧
    s'.schedule.map (fun e => e.interest_due) =
      s.schedule.map (fun e => e.interest_due) := by
  obtain ⟨j, e, hfu, hb, hpay, hs'⟩ := applyPayment_ok h
  have hget := (firstUnpaidByDueDate_spec hfu).1
  subst hs'
  constructor
  · refine map_set_eq_of_eq _ hget ?_
    split <;> rfl
  · refine map_set_eq_of_eq _ hget ?_
    split <;> rfl

/-- Counterexample for C2 as stated: the spec's own scenario — an entry
owing 100.00 principal and 10.00 interest, paid 5.00 (`a <= I`) — leaves
`interest_due` at 10.00 instead of reducing it to 5.00. -/
theorem C2_counterexample :
    applyPayment cexState 5 exPayDate none =
      .ok (cexAfter5, { schedIdx := 0, amount_paid := 5, transaction_id := 0 }) ∧
    cexAfter5.schedule.map (fun e => e.interest_due) = [10] ∧
    (10 : ℚ) ≠ 10 - 5 := by
  refine ⟨applyPayment_cex_5, ?_, by norm_num⟩
  simp [cexAfter5, cexEntry]

/-- Witness for C2: the amended theorem applied to the 5.00 payment
against the 100.00 / 10.00 entry. -/
theorem C2_components_unchanged_witness :
    cexAfter5.schedule.map (fun e => e.principal_due) =
      cexState.schedule.map (fun e => e.principal_due) ∧
    cexAfter5.schedule.map (fun e => e.interest_due) =
      cexState.schedule.map (fun e => e.interest_due) :=
  C2_components_unchanged cexState 5 exPayDate none cexAfter5
    { schedIdx := 0, amount_paid := 5, transaction_id := 0 } applyPayment_cex_5

/-- Claim C6: a payment equal to the current entry's
`interest_due + principal_due` marks that entry paid with `date_paid` set
to the payment date, and the next unpaid entry in sequence becomes the
current entry for subsequent payments.  (`due_amount = interest_due +
principal_due` holds for every row the code creates; due dates are
strictly increasing in generated schedules.) -/
theorem C6_full_settlement (s : PayState) (d : Date) (tx : Option Nat)
    (j : Nat) (e : PaymentSchedule)
    (hsort : SortedByDue s.schedule)
    (hb : ¬ s.balance ≤ 0)
    (hfu : firstUnpaidByDueDate s.schedule = some (j, e))
    (hde : e.due_amount = e.interest_due + e.principal_due) :
    ∃ s' pay,
      applyPayment s (e.interest_due + e.principal_due) d tx = .ok (s', pay) ∧
      s'.schedule.get? j = some { e with is_paid := true, date_paid := some d } ∧
      firstUnpaidByDueDate s'.schedule =
        (firstUnpaidBySequence (s.schedule.drop (j + 1))).map
          (fun p => (j + 1 + p.1, p.2)) := by
  have hget := firstUnpaidByDueDate_spec hfu
  refine ⟨{ balance := s.balance - (e.interest_due + e.principal_due)
            schedule := s.schedule.set j { e with is_paid := true, date_paid := some d }
            payments := s.payments ++
              [{ schedIdx := j, amount_paid := e.interest_due + e.principal_due,
                 transaction_id := s.nextTx }]
            nextTx := s.nextTx + 1 },
          { schedIdx := j, amount_paid := e.interest_due + e.principal_due,
            transaction_id := s.nextTx }, ?_, ?_, ?_⟩
  · unfold applyPayment
    rw [if_neg hb, hfu]
    have hc : (s.balance - (e.interest_due + e.principal_due) ≤ 0 ∨
        e.due_amount ≤ e.interest_due + e.principal_due) := Or.inr (le_of_eq hde)
    simp [hc]
    rw [if_pos (Or.inr (le_of_eq hde))]
  · exact get?_set_self hget.1 _
  · have hsorted' : SortedByDue
        (s.schedule.set j { e with is_paid := true, date_paid := some d }) :=
      sortedByDue_set hsort hget.1 rfl
    have hbridge : firstUnpaidBySequence s.schedule = some (j, e) :=
      (firstUnpaidByDueDate_eq_bySequence hsort) ▸ hfu
    show firstUnpaidByDueDate
        (s.schedule.set j { e with is_paid := true, date_paid := some d }) = _
    rw [firstUnpaidByDueDate_eq_bySequence hsorted']
    exact firstUnpaidBySequence_set_paid hbridge rfl

/-- Witness for C6: paying exactly `0 + 110` against the two-entry
ledger settles the first row (paid, dated) and makes the second row the
current entry. -/
theorem C6_full_settlement_witness :
    ∃ s' pay,
      applyPayment twoEntryState
          (exFirstEntry.interest_due + exFirstEntry.principal_due)
          exPayDate none = .ok (s', pay) ∧
      s'.schedule.get? 0 =
        some { exFirstEntry with is_paid := true, date_paid := some exPayDate } ∧
      firstUnpaidByDueDate s'.schedule =
        (firstUnpaidBySequence (twoEntryState.schedule.drop 1)).map
          (fun p => (0 + 1 + p.1, p.2)) :=
  C6_full_settlement twoEntryState exPayDate none 0 exFirstEntry
    (by
      show List.Pairwise dueLt [exFirstEntry, exEntry2]
      refine List.pairwise_cons.mpr ⟨?_, List.pairwise_singleton _ _⟩
      intro b hb
      rw [List.mem_singleton] at hb
      subst hb
      decide)
    (by norm_num [twoEntryState])
    firstUnpaid_twoEntry
    (by norm_num [exFirstEntry])

/-- Claim C7, amended: `PaymentAPIView.post` rejects a non-positive
amount with an InvalidAmount error and no state change; the serializer
path (`PaymentSerializer.create`) performs no positivity check, so the
balance non-increase guarantee only holds for payments of nonnegative
amount — a negative amount is accepted there and increases the balance. -/
theorem C7_amount_validation :
    (∀ (l : Loan) (s : PayState) (a : ℚ), l.disbursed = true → a ≤ 0 →
      paymentAPIPost (some l) s a = (s, .error .invalidAmount)) ∧
    (∀ (s : PayState) (a : ℚ) (d : Date) (tx : Option Nat)
        (s' : PayState) (pay : PaymentRec),
      0 ≤ a → applyPayment s a d tx = .ok (s', pay) →
      s'.balance ≤ s.balance) := by
  constructor
  · intro l s a hd ha
    simp [paymentAPIPost, hd, ha]
  · intro s a d tx s' pay ha h
    obtain ⟨j, e, hfu, hb, hpay, hs'⟩ := applyPayment_ok h
    subst hs'
    exact sub_le_self _ ha

/-- Counterexample for C7 as stated: a payment of -50 submitted through
`PaymentSerializer.create` is not rejected; it is applied and raises the
balance from 110 to 160. -/
theorem C7_counterexample :
    applyPayment cexState (-50) exPayDate none =
      .ok (cexAfterNeg, { schedIdx := 0, amount_paid := -50, transaction_id := 0 }) ∧
    cexAfterNeg.balance = 160 ∧
    ¬ (cexAfterNeg.balance ≤ cexState.balance) := by
  refine ⟨applyPayment_cex_neg, rfl, ?_⟩
  norm_num [cexAfterNeg, cexState]

/-- Witness for C7: a zero-amount request to the API view fails with
InvalidAmount leaving the state unchanged, and the accepted 5.00 payment
does not increase the balance. -/
theorem C7_amount_validation_witness :
    paymentAPIPost (some exLoanRow) cexState 0 = (cexState, .error .invalidAmount) ∧
    cexAfter5.balance ≤ cexState.balance := by
  constructor
  · exact C7_amount_validation.1 exLoanRow cexState 0 rfl le_rfl
  · exact C7_amount_validation.2 cexState 5 exPayDate none cexAfter5
      { schedIdx := 0, amount_paid := 5, transaction_id := 0 }
      (by norm_num) applyPayment_cex_5

/-- Claim C8, amended: the caller-supplied transaction id is ignored
(the serializer declares `transaction_id` read-only and no duplicate
check exists): resubmitting the same id is never rejected — the outcome
does not depend on the supplied id at all, and two submissions create two
Payment rows with distinct freshly generated transaction ids and two
balance decrements. -/
theorem C8_duplicate_not_detected :
    (∀ (s : PayState) (a : ℚ) (d : Date) (t1 t2 : Option Nat),
      applyPayment s a d t1 = applyPayment s a d t2) ∧
    (∀ (s : PayState) (a : ℚ) (d : Date) (tx : Option Nat)
        (s1 s2 : PayState) (p1 p2 : PaymentRec),
      applyPayment s a d tx = .ok (s1, p1) →
      applyPayment s1 a d tx = .ok (s2, p2) →
      s2.payments = s.payments ++ [p1, p2] ∧
      s2.balance = s.balance - a - a ∧
      p1.transaction_id ≠ p2.transaction_id) := by
  constructor
  · intro s a d t1 t2
    rfl
  · intro s a d tx s1 s2 p1 p2 h1 h2
    obtain ⟨j1, e1, hfu1, hb1, hpay1, hs1⟩ := applyPayment_ok h1
    obtain ⟨j2, e2, hfu2, hb2, hpay2, hs2⟩ := applyPayment_ok h2
    subst hs1
    subst hs2
    subst hpay1
    subst hpay2
    refine ⟨by simp, by simp, ?_⟩
    simp

/-- Counterexample for C8 as stated: submitting transaction id 7 twice
against the two-installment ledger produces two Payment rows and two
balance decrements (220 to 0), not one. -/
theorem C8_counterexample :
    (applyTwice twoEntryState 110 exPayDate (some 7)).map
      (fun s => (s.payments.length, s.balance)) = some (2, 0) ∧
    (2 : Nat) ≠ 1 := by
  constructor
  · unfold applyTwice
    rw [applyPayment_twoEntry_full (some 7)]
    simp only []
    rw [applyPayment_twoEntry_second (some 7)]
    simp [afterBothFull]
  · decide

/-- Witness for C8: concrete instantiation — the result is independent of
the submitted id, and two identical submissions yield two recorded
payments with transaction ids 0 and 1 and a doubly decremented balance. -/
theorem C8_duplicate_not_detected_witness :
    applyPayment twoEntryState 110 exPayDate (some 7) =
      applyPayment twoEntryState 110 exPayDate (some 99) ∧
    (afterBothFull.payments = twoEntryState.payments ++
      [{ schedIdx := 0, amount_paid := 110, transaction_id := 0 },
       { schedIdx := 1, amount_paid := 110, transaction_id := 1 }] ∧
     afterBothFull.balance = twoEntryState.balance - 110 - 110 ∧
     ({ schedIdx := 0, amount_paid := 110, transaction_id := 0 } :
        PaymentRec).transaction_id ≠
       ({ schedIdx := 1, amount_paid := 110, transaction_id := 1 } :
        PaymentRec).transaction_id) := by
  constructor
  · exact C8_duplicate_not_detected.1 twoEntryState 110 exPayDate (some 7) (some 99)
  · exact C8_duplicate_not_detected.2 twoEntryState 110 exPayDate (some 7)
      afterFirstFull afterBothFull _ _
      (applyPayment_twoEntry_full (some 7)) (applyPayment_twoEntry_second (some 7))
